import Mathlib

/-!
Shallow embedding of `src/main.py` of the Kwame repository: a small
builder-style facade over a Starlette-like application.  Python objects
are modelled as Lean structures; Python object identity, where a claim
depends on it, is modelled by an `id : Nat` field assigned at creation.
Python exceptions are modelled with `Except`.
-/

/-- The request handlers defined at module level in `src/main.py`; a Python
`callable` passed to `add_route` is identified by its name. -/
inductive Endpoint where
  | home_controller
  | handlebars_controller
  | api_create_user
  | otherHandler (name : String)
deriving DecidableEq, Repr

/-- A middleware class as passed to `add_middleware` / stored by Starlette.
`src/main.py` registers only `SessionMiddleware` (with its secret key);
further middleware classes are identified by name. -/
inductive Middleware where
  | sessionMiddleware (secret_key : String)
  | otherMiddleware (name : String)
deriving DecidableEq, Repr

/-- A `starlette.routing.Route` as constructed in `Kwame.add_route`
(src/main.py line 48): `Route(path, endpoint, methods=methods)`. -/
structure Route where
  path : String
  endpoint : Endpoint
  methods : List String
deriving DecidableEq, Repr

/-- The `Starlette` application object: its route table and its user
middleware list.  `id` models Python object identity (two `Starlette`
values with the same `id` model the same Python object). -/
structure Starlette where
  id : Nat
  debug : Bool
  routes : List Route
  user_middleware : List Middleware
deriving DecidableEq, Repr

/-- `Starlette(debug=True)` (src/main.py line 36): a fresh application with
an empty route table and no user middleware. -/
def Starlette.new (id : Nat) : Starlette :=
  { id := id, debug := true, routes := [], user_middleware := [] }

/-- `Starlette.add_middleware` inserts the middleware at position 0 of the
application's user middleware list. -/
def Starlette.add_middleware (app : Starlette) (m : Middleware) : Starlette :=
  { app with user_middleware := m :: app.user_middleware }

/-- A SQLAlchemy ORM session object (the value of `SessionLocal()`),
identified by its creation identity.  `Session.close()` releases the
underlying connection but does not replace the session object, so identity
is the only attribute the claims depend on. -/
structure Session where
  id : Nat
deriving DecidableEq, Repr

/-- A minimal JSON value: what `json_response` serialises and what the
POST body of `/api/create_user` carries. -/
inductive JsonValue where
  | str (s : String)
  | obj (fields : List (String × JsonValue))

/-- Starlette's `JSONResponse(data)`: `status_code` defaults to 200. -/
structure JSONResponse where
  data : JsonValue
  status_code : Nat := 200

/-- An HTML response as returned by the template-rendering helpers. -/
structure HTMLResponse where
  body : String
  status_code : Nat := 200

/-- A Starlette `Request`, restricted to what the handlers read: the
session dict installed by `SessionMiddleware` and the JSON body.  The
session dict is modelled as an association list; `set_session` conses a
fresh binding at the front and lookups take the leftmost binding, which
matches the observable behaviour of `dict.__setitem__` + `dict.get`. -/
structure Request where
  session : List (String × String)
  body : JsonValue

/-- The `Kwame` instance state (src/main.py lines 34-44): the wrapped
Starlette app, the accumulated route and middleware lists, the template
folders and the single database session created in `__init__`.  The
Jinja2 `Environment` and the pybars `Compiler` are stateless delegations
and are modelled as pure rendering functions below. -/
structure Kwame where
  app : Starlette
  routes : List Route
  middlewares : List Middleware
  template_folder : String
  static_folder : String
  db : Session
deriving DecidableEq, Repr

/-- `Kwame.__init__` (src/main.py lines 35-44): builds a fresh Starlette
app, empty route/middleware lists, adds the `SessionMiddleware` to the app
and stores the session `SessionLocal()` as `self.db`. -/
def Kwame.init (appId : Nat) (db : Session)
    (template_folder : String := "templates")
    (static_folder : String := "static") : Kwame :=
  { app := (Starlette.new appId).add_middleware (.sessionMiddleware "secret"),
    routes := [],
    middlewares := [],
    template_folder := template_folder,
    static_folder := static_folder,
    db := db }

/-- `Kwame.add_route` (src/main.py lines 46-49): builds a `Route` and
appends it to `self.routes`. -/
def Kwame.add_route (k : Kwame) (path : String) (endpoint : Endpoint)
    (methods : List String := ["GET"]) : Kwame :=
  { k with routes := k.routes ++ [Route.mk path endpoint methods] }

/-- `Kwame.add_middleware` (src/main.py lines 51-53): appends the
middleware class to `self.middlewares`. -/
def Kwame.add_middleware (k : Kwame) (m : Middleware) : Kwame :=
  { k with middlewares := k.middlewares ++ [m] }

/-- `Kwame.create_app` (src/main.py lines 55-60): adds every accumulated
middleware to `self.app`, extends `self.app.routes` with the accumulated
routes (Starlette's `.routes` property exposes the router's own list, so
the extend mutates the stored app) and returns `self.app`.  The result is
the updated instance state paired with the returned application object. -/
def Kwame.create_app (k : Kwame) : Kwame × Starlette :=
  let app1 := k.middlewares.foldl Starlette.add_middleware k.app
  let app2 := { app1 with routes := app1.routes ++ k.routes }
  ({ k with app := app2 }, app2)

/-- `Kwame.get_db` (src/main.py lines 76-82): the generator yields
`self.db`; the `finally` clause closes the session after use but never
replaces the object, so the value handed to each caller is `self.db`. -/
def Kwame.get_db (k : Kwame) : Session := k.db

/-- `Kwame.set_session` (src/main.py lines 84-86):
`request.session[key] = value`. -/
def Kwame.set_session (_k : Kwame) (request : Request) (key value : String) :
    Request :=
  { request with session := (key, value) :: request.session }

/-- `Kwame.get_session` (src/main.py lines 88-90):
`request.session.get(key, None)` — the stored value when the key is
present, `None` (never an exception) when it is absent. -/
def Kwame.get_session (_k : Kwame) (request : Request) (key : String) :
    Option String :=
  (request.session.find? (fun p => p.1 == key)).map Prod.snd

/-- `Kwame.json_response` (src/main.py lines 72-74): `JSONResponse(data)`
with Starlette's default status code of 200. -/
def Kwame.json_response (_k : Kwame) (data : JsonValue) : JSONResponse :=
  { data := data }

/-- HTML escaping of one character as applied by pybars to a plain
double-brace variable substitution (the escapeExpression of handlebars). -/
def htmlEscapeChar (c : Char) : String :=
  if c = '&' then "&amp;"
  else if c = '<' then "&lt;"
  else if c = '>' then "&gt;"
  else if c = Char.ofNat 34 then "&quot;"
  else if c = Char.ofNat 39 then "&#x27;"
  else String.singleton c

/-- HTML escaping of a string, character by character. -/
def htmlEscape (s : String) : String :=
  String.join (s.data.map htmlEscapeChar)

/-- Replace every occurrence of `pat` in the character list by `rep`,
scanning left to right; the fuel argument (instantiated with the length
of the list) makes the recursion structural. -/
def replaceAllAux (pat rep : List Char) : Nat → List Char → List Char
  | 0, cs => cs
  | fuel + 1, cs =>
      match cs with
      | [] => []
      | c :: rest =>
          if pat.isPrefixOf cs then
            rep ++ replaceAllAux pat rep fuel (cs.drop pat.length)
          else
            c :: replaceAllAux pat rep fuel rest

/-- Replace every occurrence of `pat` in `s` by `rep`. -/
def replaceAll (s pat rep : String) : String :=
  String.mk (replaceAllAux pat.data rep.data s.data.length s.data)

/-- Replace every occurrence of the double-braced variable `key` in
`template` by `value`. -/
def mustacheSubst (template key value : String) : String :=
  replaceAll template ("\x7b\x7b" ++ key ++ "\x7d\x7d") value

/-- Rendering of a Handlebars template by pybars, for templates that use
only plain double-brace variable substitutions — the only feature the
inline template of `handlebars_controller` uses: every occurrence of a
double-braced context key is replaced by the HTML-escaped context value. -/
def handlebarsRender (template : String) (context : List (String × String)) :
    String :=
  context.foldl (fun acc p => mustacheSubst acc p.1 (htmlEscape p.2)) template

/-- `Kwame.render_handlebars` (src/main.py lines 67-70): compiles the
template string with pybars and wraps the rendered text in an
`HTMLResponse`. -/
def Kwame.render_handlebars (_k : Kwame) (template_string : String)
    (context : List (String × String)) : HTMLResponse :=
  { body := handlebarsRender template_string context }

/-- The argument pair a controller hands to `Kwame.render_jinja`
(src/main.py lines 62-65): the template name resolved against the
template folder, and the context dict.  The template file
`templates/home.html` is not part of the repository sources, so Jinja2
rendering is observed at the level of this call. -/
structure JinjaRenderCall where
  template_name : String
  context : List (String × String)
deriving DecidableEq, Repr

/-- `Kwame.render_jinja` (src/main.py lines 62-65) delegates
`self.env.get_template(template_name).render(context)` to Jinja2 and
wraps the result in an `HTMLResponse`; with the template file external to
the sources, the embedding records the rendering call it performs. -/
def Kwame.render_jinja (_k : Kwame) (template_name : String)
    (context : List (String × String)) : JinjaRenderCall :=
  { template_name := template_name, context := context }

/-- Python `a or b` on an optional string `a`: `None` and the empty
string are falsy, any other string is truthy. -/
def pyOrStr : Option String → String → String
  | none, d => d
  | some s, d => if s = "" then d else s

/-- `home_controller` (src/main.py lines 101-104): reads the session key
`username`, builds the greeting with the f-string
`Hello, ...!` over `username or "Guest"`, and renders `home.html` with
that message as context. -/
def home_controller (k : Kwame) (request : Request) : JinjaRenderCall :=
  let username := k.get_session request "username"
  k.render_jinja "home.html" [("message", "Hello, " ++ pyOrStr username "Guest" ++ "!")]

/-- The inline template string of `handlebars_controller`
(src/main.py lines 107-114). -/
def handlebars_template : String :=
  "\n    <html>\n        <head><title>\x7b\x7btitle\x7d\x7d</title></head>\n        <body>\n            <h1>\x7b\x7bmessage\x7d\x7d</h1>\n        </body>\n    </html>\n    "

/-- `handlebars_controller` (src/main.py lines 106-119): renders the
inline template with the fixed title and message. -/
def handlebars_controller (k : Kwame) (_request : Request) : HTMLResponse :=
  k.render_handlebars handlebars_template
    [("title", "Handlebars Rendering in Kwame"),
     ("message", "This message is rendered using Handlebars on the server.")]

/-- A row of the `users` table (the ORM model `User`,
src/main.py lines 23-27). -/
structure UserRow where
  id : Nat
  username : String
  email : String
deriving DecidableEq, Repr

/-- The contents of the `users` table behind the shared session. -/
structure DbState where
  users : List UserRow
  nextId : Nat
deriving DecidableEq, Repr

/-- The pydantic input model `UserModel` (src/main.py lines 93-98):
exactly the fields `username` and `email`, both strings. -/
structure UserModel where
  username : String
  email : String
deriving DecidableEq, Repr

/-- `user_data.dict()` on a pydantic model: the field dict. -/
def UserModel.dict (u : UserModel) : JsonValue :=
  .obj [("username", .str u.username), ("email", .str u.email)]

/-- Python exceptions arising in `api_create_user`.  pydantic's
`ValidationError` is a subclass of `ValueError`; `AttributeError` is not,
so only the former is caught by the except clause there. -/
inductive PyErr where
  | attributeError (msg : String)
  | valueError (msg : String)
deriving DecidableEq, Repr

/-- `isinstance(e, ValueError)`. -/
def PyErr.isValueError : PyErr → Bool
  | .valueError _ => true
  | .attributeError _ => false

/-- `str(e)` on the exception. -/
def PyErr.str : PyErr → String
  | .attributeError m => m
  | .valueError m => m

/-- The expression `UserModel.from_request(request)` awaited at
src/main.py line 124.  `UserModel` declares only the two fields and
pydantic's `BaseModel` defines no `from_request` attribute, so the
attribute lookup raises `AttributeError` for every request, before the
request body is read or validated. -/
def UserModel.from_request (_request : Request) : Except PyErr UserModel :=
  .error (.attributeError "type object UserModel has no attribute from_request")

/-- `api_create_user` (src/main.py lines 122-132).  The try block is
threaded through `Except`: a successfully validated body is inserted into
the users table and echoed in a success JSON body; an exception that is a
`ValueError` is turned into a JSON body with the single key `error`; any
other exception escapes the handler.  The database rows are threaded
explicitly as `DbState`. -/
def api_create_user (k : Kwame) (db : DbState) (request : Request) :
    Except PyErr (JSONResponse × DbState) :=
  match UserModel.from_request request with
  | .ok user_data =>
      let db_user : UserRow :=
        { id := db.nextId, username := user_data.username, email := user_data.email }
      let db2 : DbState := { users := db.users ++ [db_user], nextId := db.nextId + 1 }
      .ok (k.json_response (.obj [("message", .str "User created successfully"),
                                  ("user", user_data.dict)]), db2)
  | .error e =>
      if e.isValueError then
        .ok (k.json_response (.obj [("error", .str e.str)]), db)
      else
        .error e

/-- The module-level construction (src/main.py lines 135-140):
`kwame = Kwame(template_folder="templates", static_folder="static")`
followed by the three `add_route` calls, in source order. -/
def kwame : Kwame :=
  (((Kwame.init 0 (Session.mk 0) "templates" "static").add_route
        "/" .home_controller ["GET"]).add_route
      "/handlebars" .handlebars_controller ["GET"]).add_route
    "/api/create_user" .api_create_user ["POST"]

/-- `app = kwame.create_app()` (src/main.py line 143). -/
def app : Starlette := kwame.create_app.2

/-- A mutating call on a `Kwame` instance: the only methods of the class
that write instance state. -/
inductive KOp where
  | addRoute (path : String) (endpoint : Endpoint) (methods : List String)
  | addMiddleware (m : Middleware)
  | createApp

/-- Apply one mutating call to the instance state. -/
def KOp.apply (k : Kwame) : KOp → Kwame
  | .addRoute p e ms => k.add_route p e ms
  | .addMiddleware m => k.add_middleware m
  | .createApp => k.create_app.1

/-- Apply a sequence of mutating calls, left to right. -/
def runOps (k : Kwame) (ops : List KOp) : Kwame := ops.foldl KOp.apply k

/-- Substring containment over character lists, used to state that a
rendered HTML body contains a given literal. -/
def strContains (hay needle : String) : Bool :=
  (List.range (hay.data.length + 1)).any
    (fun i => needle.data.isPrefixOf (hay.data.drop i))

/-! ## Helper lemmas -/

/-- No mutating method of `Kwame` replaces the session stored in
`self.db`. -/
theorem KOp.apply_db (k : Kwame) (op : KOp) : (KOp.apply k op).db = k.db := by
  cases op <;> rfl

/-- A whole sequence of mutating calls leaves `self.db` untouched. -/
theorem runOps_db (k : Kwame) (ops : List KOp) : (runOps k ops).db = k.db := by
  induction ops generalizing k with
  | nil => rfl
  | cons op ops ih =>
      calc (runOps k (op :: ops)).db = (runOps (KOp.apply k op) ops).db := rfl
        _ = (KOp.apply k op).db := ih _
        _ = k.db := KOp.apply_db k op

/-- Folding `Starlette.add_middleware` prepends the list in reverse. -/
theorem foldl_add_middleware_user_middleware (ms : List Middleware)
    (app : Starlette) :
    (ms.foldl Starlette.add_middleware app).user_middleware =
      ms.reverse ++ app.user_middleware := by
  induction ms generalizing app with
  | nil => simp
  | cons m ms ih => simp [List.foldl, ih, Starlette.add_middleware]

/-- Folding `Starlette.add_middleware` does not change the application's
identity. -/
theorem foldl_add_middleware_id (ms : List Middleware) (app : Starlette) :
    (ms.foldl Starlette.add_middleware app).id = app.id := by
  induction ms generalizing app with
  | nil => rfl
  | cons m ms ih => simpa [List.foldl, Starlette.add_middleware] using ih _

/-- Folding `Starlette.add_middleware` does not change the route table. -/
theorem foldl_add_middleware_routes (ms : List Middleware) (app : Starlette) :
    (ms.foldl Starlette.add_middleware app).routes = app.routes := by
  induction ms generalizing app with
  | nil => rfl
  | cons m ms ih => simpa [List.foldl, Starlette.add_middleware] using ih _

/-! ## Claims -/

/-- C4: after the module-level registration sequence and `create_app`,
the application's route table is exactly the three registered routes —
`GET /` bound to `home_controller`, `GET /handlebars` bound to
`handlebars_controller`, `POST /api/create_user` bound to
`api_create_user` — in that order. -/
theorem kwame_app_route_table :
    app.routes =
      [Route.mk "/" .home_controller ["GET"],
       Route.mk "/handlebars" .handlebars_controller ["GET"],
       Route.mk "/api/create_user" .api_create_user ["POST"]] := rfl

/-- C5: in every state reachable from `Kwame.__init__` by the instance's
mutating methods, `get_db` yields the single session object stored by
`__init__` — one shared session for the process lifetime, never a fresh
one per call. -/
theorem kwame_get_db_shared_session (appId : Nat) (db : Session)
    (tf sf : String) (ops : List KOp) :
    Kwame.get_db (runOps (Kwame.init appId db tf sf) ops) = db := by
  calc Kwame.get_db (runOps (Kwame.init appId db tf sf) ops)
      = (runOps (Kwame.init appId db tf sf) ops).db := rfl
    _ = (Kwame.init appId db tf sf).db := runOps_db _ _
    _ = db := rfl

/-- C8: `add_route` appends exactly one `Route` to `self.routes` and
`add_middleware` appends exactly one element to `self.middlewares`;
neither call changes any other field of the instance — in particular the
already-built `self.app`, the other list, the folders and the session. -/
theorem kwame_add_calls_frame (k : Kwame) (p : String) (e : Endpoint)
    (ms : List String) (m : Middleware) :
    (k.add_route p e ms).routes = k.routes ++ [Route.mk p e ms] ∧
    (k.add_route p e ms).app = k.app ∧
    (k.add_route p e ms).middlewares = k.middlewares ∧
    (k.add_route p e ms).template_folder = k.template_folder ∧
    (k.add_route p e ms).static_folder = k.static_folder ∧
    (k.add_route p e ms).db = k.db ∧
    (k.add_middleware m).middlewares = k.middlewares ++ [m] ∧
    (k.add_middleware m).app = k.app ∧
    (k.add_middleware m).routes = k.routes ∧
    (k.add_middleware m).template_folder = k.template_folder ∧
    (k.add_middleware m).static_folder = k.static_folder ∧
    (k.add_middleware m).db = k.db :=
  ⟨rfl, rfl, rfl, rfl, rfl, rfl, rfl, rfl, rfl, rfl, rfl, rfl⟩

/-- C9: `get_session` returns the stored session value when the key is
present, returns `None` rather than raising when the key is absent, and
reads back the value just written by `set_session`. -/
theorem kwame_session_get_set (k : Kwame) (r : Request)
    (key v value : String) :
    (r.session.find? (fun p => p.1 == key) = some (key, v) →
        k.get_session r key = some v) ∧
    (r.session.find? (fun p => p.1 == key) = none →
        k.get_session r key = none) ∧
    k.get_session (k.set_session r key value) key = some value := by
  refine ⟨fun h => ?_, fun h => ?_, ?_⟩
  · simp [Kwame.get_session, h]
  · simp [Kwame.get_session, h]
  · simp [Kwame.get_session, Kwame.set_session]

/-- Witness for C9 at concrete sessions: a present key, an absent key,
and a set-then-get round trip. -/
theorem kwame_session_get_set_witness :
    Kwame.get_session kwame (Request.mk [("username", "ada")] (.obj []))
        "username" = some "ada" ∧
    Kwame.get_session kwame (Request.mk [] (.obj [])) "email" = none ∧
    Kwame.get_session kwame
        (Kwame.set_session kwame (Request.mk [] (.obj [])) "username" "bob")
        "username" = some "bob" :=
  ⟨(kwame_session_get_set kwame (Request.mk [("username", "ada")] (.obj []))
      "username" "ada" "x").1 rfl,
   (kwame_session_get_set kwame (Request.mk [] (.obj []))
      "email" "x" "x").2.1 rfl,
   (kwame_session_get_set kwame (Request.mk [] (.obj []))
      "username" "x" "bob").2.2⟩

/-- C10: `create_app` returns the very application object stored in
`self.app` (the updated instance stores the same object it returns, with
the identity of the app built in `__init__`, not a copy); the returned
application's route list is the accumulated routes appended, in
registration order, to whatever the app already had; and every
accumulated middleware has been added to the application. -/
theorem kwame_create_app_returns_stored_app (k : Kwame) :
    k.create_app.2 = k.create_app.1.app ∧
    k.create_app.2.id = k.app.id ∧
    k.create_app.2.routes = k.app.routes ++ k.routes ∧
    ∀ m ∈ k.middlewares, m ∈ k.create_app.2.user_middleware := by
  refine ⟨rfl, ?_, ?_, fun m hm => ?_⟩
  · simpa [Kwame.create_app] using foldl_add_middleware_id k.middlewares k.app
  · simpa [Kwame.create_app] using foldl_add_middleware_routes k.middlewares k.app
  · have h : k.create_app.2.user_middleware =
        k.middlewares.reverse ++ k.app.user_middleware := by
      simpa [Kwame.create_app] using
        foldl_add_middleware_user_middleware k.middlewares k.app
    rw [h]
    exact List.mem_append.mpr (Or.inl (List.mem_reverse.mpr hm))

/-- Witness for C10: on the module-level instance extended with one
middleware, the middleware is present in the returned application. -/
theorem kwame_create_app_returns_stored_app_witness :
    Middleware.otherMiddleware "LoggingMiddleware" ∈
      (kwame.add_middleware
        (.otherMiddleware "LoggingMiddleware")).create_app.2.user_middleware :=
  (kwame_create_app_returns_stored_app
      (kwame.add_middleware (.otherMiddleware "LoggingMiddleware"))).2.2.2
    (.otherMiddleware "LoggingMiddleware") (by decide)

/-- C6 counterexample: with the session key `username` present and bound
to the empty string, the context message is the guest greeting
`Hello, Guest!` — not `Hello, !`, the greeting over the present session
value that the claim prescribes for every present key.  Python truthiness
makes `username or "Guest"` discard the empty string. -/
theorem kwame_home_empty_username_counterexample :
    Kwame.get_session kwame (Request.mk [("username", "")] (.obj []))
        "username" = some "" ∧
    (home_controller kwame (Request.mk [("username", "")] (.obj []))).context ≠
      [("message", "Hello, !")] := by
  exact ⟨rfl, by decide⟩

/-- C6 amended: `home_controller` renders `home.html` with the context
message `Hello, <username>!` where `<username>` is the session value for
key `username` when that value is present and non-empty, and the string
`Guest` when the key is absent or its value is the empty string. -/
theorem kwame_home_greeting (k : Kwame) (request : Request) (v : String) :
    (home_controller k request).template_name = "home.html" ∧
    (k.get_session request "username" = some v → v ≠ "" →
        (home_controller k request).context =
          [("message", "Hello, " ++ v ++ "!")]) ∧
    (k.get_session request "username" = none →
        (home_controller k request).context =
          [("message", "Hello, Guest!")]) ∧
    (k.get_session request "username" = some "" →
        (home_controller k request).context =
          [("message", "Hello, Guest!")]) := by
  refine ⟨rfl, fun h hv => ?_, fun h => ?_, fun h => ?_⟩
  · simp [home_controller, Kwame.render_jinja, pyOrStr, h, hv]
  · simp [home_controller, Kwame.render_jinja, pyOrStr, h]
  · simp [home_controller, Kwame.render_jinja, pyOrStr, h]

/-- Witness for C6 (amended) at concrete requests: a non-empty session
value, an absent key, and an empty session value. -/
theorem kwame_home_greeting_witness :
    (home_controller kwame (Request.mk [("username", "ada")] (.obj []))).context
        = [("message", "Hello, ada!")] ∧
    (home_controller kwame (Request.mk [] (.obj []))).context
        = [("message", "Hello, Guest!")] ∧
    (home_controller kwame (Request.mk [("username", "")] (.obj []))).context
        = [("message", "Hello, Guest!")] :=
  ⟨(kwame_home_greeting kwame (Request.mk [("username", "ada")] (.obj []))
      "ada").2.1 rfl (by decide),
   (kwame_home_greeting kwame (Request.mk [] (.obj [])) "x").2.2.1 rfl,
   (kwame_home_greeting kwame (Request.mk [("username", "")] (.obj []))
      "x").2.2.2 rfl⟩

set_option maxRecDepth 8000 in
/-- C7: for every request, `handlebars_controller` returns an HTML
response whose body contains the literal string
`Handlebars Rendering in Kwame`, substituted for the double-braced
`title` variable of the inline template. -/
theorem kwame_handlebars_contains_title (k : Kwame) (request : Request) :
    strContains (handlebars_controller k request).body
      "Handlebars Rendering in Kwame" = true := rfl

/-- The C1/C3 failing input: a POST body with a username but no email. -/
def req_missing_email : Request :=
  { session := [], body := .obj [("username", .str "a")] }

/-- The C2 failing input: a POST body with both required fields. -/
def req_valid_user : Request :=
  { session := [],
    body := .obj [("username", .str "a"), ("email", .str "a@example.com")] }

/-- C1 (code bug): at a request whose JSON body is missing the required
email field, `api_create_user` does not return a JSON error body — the
attribute lookup of the nonexistent `UserModel.from_request` raises
`AttributeError`, which the `except ValueError` clause does not catch, so
the exception escapes the handler. -/
theorem kwame_api_create_user_missing_field_escapes :
    api_create_user kwame (DbState.mk [] 1) req_missing_email =
      .error (.attributeError
        "type object UserModel has no attribute from_request") := rfl

/-- C2 (code bug): at a request with a valid JSON body carrying both
`username` and `email`, `api_create_user` does not return the success
echo — the same `AttributeError` is raised before the body is read, and
it escapes the handler. -/
theorem kwame_api_create_user_valid_body_escapes :
    api_create_user kwame (DbState.mk [] 1) req_valid_user =
      .error (.attributeError
        "type object UserModel has no attribute from_request") := rfl

/-- C3 (code bug): `json_response` does build its `JSONResponse` with the
default status code 200, but no request ever reaches schema validation —
every call to `api_create_user`, whatever the database state and request,
raises `AttributeError` before validating, so the 200-status JSON body
with the `error` field is never produced. -/
theorem kwame_api_validation_response_unreachable :
    (∀ data, (Kwame.json_response kwame data).status_code = 200) ∧
    ∀ db request, api_create_user kwame db request =
      .error (.attributeError
        "type object UserModel has no attribute from_request") :=
  ⟨fun _ => rfl, fun _ _ => rfl⟩
